import Mathlib

/-!
Verification of the game-process monitoring subsystem of ReinaManager
(`src-tauri/src/utils/game_monitor.rs`).

The monitor loop, the foreground-hook poll, session stop/termination and
session finalization are embedded as pure Lean functions.  Shared mutable
state (the `MonitorState` struct and the candidate-PID set, which in the
source are `Arc<RwLock<_>>` values written by the hook thread and read by
the monitor loop) is modelled by passing the values the loop reads as
per-tick inputs and recording the loop's own writes in an explicit state.
OS oracles (liveness queries, process enumeration, executable-path lookup,
event-emission success) are inputs as well.  Rust panics are modelled by
an explicit `PanicOr` result type where relevant.
-/

namespace GameMonitor

/-- Threshold of consecutive liveness-check failures
(`MAX_CONSECUTIVE_FAILURES` in the source). -/
def MAX_CONSECUTIVE_FAILURES : Nat := 3

/-- Interval, in accumulated seconds, between time-update events
(`TIME_UPDATE_INTERVAL_SECS` in the source). -/
def TIME_UPDATE_INTERVAL_SECS : Nat := 1

/-- Events the monitor loop itself can emit while running
(`game-process-switched` and `game-time-update`). -/
inductive LoopEvent
  | processSwitched (newProcessId : Nat)
  | timeUpdate (totalMinutes totalSeconds processId : Nat)
deriving DecidableEq, Repr

/-- The shared `MonitorState` struct: written by the hook thread,
read once per tick by the monitor loop. -/
structure MonitorState where
  is_foreground : Bool
  best_pid : Nat
deriving DecidableEq, Repr

/-- Constructor `MonitorState::new(initial_pid)` from the source:
`is_foreground = false`, `best_pid = initial_pid`. -/
def MonitorState.new (initial_pid : Nat) : MonitorState :=
  { is_foreground := false, best_pid := initial_pid }

/-- Local and shared state as visible to the monitor loop of
`run_game_monitor` (Windows revision): the local accumulator, the
consecutive-failure counter, `last_best_pid`, and the loop's view of the
shared candidate set and best PID (which it overwrites on a rescan). -/
structure LoopState where
  accumulatedSeconds : Nat
  consecutiveFailures : Nat
  lastBestPid : Nat
  bestPid : Nat
  isForeground : Bool
  candidatePids : List Nat
deriving DecidableEq, Repr

/-- Environment supplied to one iteration of the monitor loop: the stop
signal, the shared state snapshot `(is_foreground, best_pid)` the loop
reads, the result of `is_process_running(current_best_pid)`, the result a
rescan (`get_all_candidate_pids`) would return on this tick, and whether
each event emission would succeed.  `emitSwitchOk` models the result the
source discards with `.ok()`. -/
structure TickInput where
  stop : Bool
  isForeground : Bool
  currentBestPid : Nat
  bestPidRunning : Bool
  rescanPids : List Nat
  emitTimeUpdateOk : Bool
  emitSwitchOk : Bool
deriving DecidableEq, Repr

/-- Outcome of one loop iteration: continue with events emitted, break on
stop signal, break because a rescan found no candidates, or return early
with `Err` because a `game-time-update` emission failed (the source's
`.map_err(..)?`). -/
inductive TickResult
  | cont (s : LoopState) (events : List LoopEvent)
  | stopped (s : LoopState)
  | ended (s : LoopState)
  | emitError (s : LoopState)
deriving DecidableEq, Repr

/-- One iteration of the main monitoring loop of `run_game_monitor`
(Windows revision), translated branch-for-branch from the source.  The
rescan branch also resets the shared `is_foreground` flag and picks the
first element of the freshly enumerated candidate set as the new best
PID; the alive branch resets the failure counter, refreshes
`last_best_pid`, and increments the accumulator exactly when the shared
foreground flag is set. -/
def monitorTick (s : LoopState) (i : TickInput) : TickResult :=
  if i.stop then .stopped s
  else if !i.bestPidRunning then
    let cf := s.consecutiveFailures + 1
    if MAX_CONSECUTIVE_FAILURES ≤ cf then
      match i.rescanPids with
      | [] => .ended { s with consecutiveFailures := cf }
      | newBest :: rest =>
        .cont { s with candidatePids := newBest :: rest, bestPid := newBest,
                       isForeground := false, consecutiveFailures := 0,
                       lastBestPid := newBest }
          [LoopEvent.processSwitched newBest]
    else .cont { s with consecutiveFailures := cf } []
  else
    let s1 := { s with consecutiveFailures := 0, lastBestPid := i.currentBestPid }
    if i.isForeground then
      let acc := s1.accumulatedSeconds + 1
      let s2 := { s1 with accumulatedSeconds := acc }
      if 0 < acc ∧ acc % TIME_UPDATE_INTERVAL_SECS = 0 then
        if i.emitTimeUpdateOk then
          .cont s2 [LoopEvent.timeUpdate (acc / 60) acc i.currentBestPid]
        else .emitError s2
      else .cont s2 []
    else .cont s1 []

/-- State carried out of a tick regardless of how it exited. -/
def tickState : TickResult → LoopState
  | .cont s _ => s
  | .stopped s => s
  | .ended s => s
  | .emitError s => s

/-- Events delivered by a tick (none on a break or on a failed emission). -/
def tickEvents : TickResult → List LoopEvent
  | .cont _ evs => evs
  | _ => []

/-- Condition under which a tick takes the rescan branch of the source:
no stop signal, the liveness check of the best PID failed, and the
incremented failure counter reaches `MAX_CONSECUTIVE_FAILURES`. -/
def tickRescans (s : LoopState) (i : TickInput) : Bool :=
  !i.stop && !i.bestPidRunning &&
    decide (MAX_CONSECUTIVE_FAILURES ≤ s.consecutiveFailures + 1)

/-- Why the monitor loop stopped consuming ticks. -/
inductive LoopExit
  | stopSignal
  | noCandidates
  | emitFailure
deriving DecidableEq, Repr

/-- The monitor loop run over a finite trace of tick inputs.  Returns the
final state, how the loop exited (`none` when the trace was exhausted
with the loop still live) and the events emitted along the way. -/
def runLoop : LoopState → List TickInput → LoopState × Option LoopExit × List LoopEvent
  | s, [] => (s, none, [])
  | s, i :: rest =>
    match monitorTick s i with
    | .stopped s1 => (s1, some .stopSignal, [])
    | .ended s1 => (s1, some .noCandidates, [])
    | .emitError s1 => (s1, some .emitFailure, [])
    | .cont s1 evs =>
      let r := runLoop s1 rest
      (r.1, r.2.1, evs ++ r.2.2)

/-- Seeding of the candidate set at session start: the enumerated PIDs,
plus the originally supplied PID when it is absent and still running
(the source's `if !candidate_pids_set.contains(&initial_pid) &&
is_process_running(initial_pid) { insert }`). -/
def seed_candidate_pids (enumerated : List Nat) (initial_pid : Nat)
    (initialPidRunning : Bool) : List Nat :=
  if enumerated.contains initial_pid then enumerated
  else if initialPidRunning then initial_pid :: enumerated
  else enumerated

/-- Whole-session outcome of `run_game_monitor` as far as the registry is
concerned: whether `unregister_session` ran, how the loop exited, and
whether the `game-session-started` emission failed (which makes the
function return `Err` before the loop starts, after `register_session`
already ran). -/
structure SessionOutcome where
  unregistered : Bool
  exit : Option LoopExit
  startedEmitFailed : Bool
  finalState : LoopState
deriving DecidableEq, Repr

/-- The loop state as `run_game_monitor` sets it up after seeding:
accumulator and failure counter at zero, `last_best_pid` and the shared
state from `MonitorState::new(initial_pid)`, candidate set seeded. -/
def initialLoopState (enumerated : List Nat) (initial_pid : Nat)
    (initialPidRunning : Bool) : LoopState :=
  { accumulatedSeconds := 0, consecutiveFailures := 0,
    lastBestPid := (MonitorState.new initial_pid).best_pid,
    bestPid := (MonitorState.new initial_pid).best_pid,
    isForeground := (MonitorState.new initial_pid).is_foreground,
    candidatePids := seed_candidate_pids enumerated initial_pid initialPidRunning }

/-- Registry effect of the loop exit: `unregister_session` sits after the
loop in the source, so it runs exactly when the loop exits through a
`break` (stop signal or empty rescan); a `?`-propagated time-update
emission failure returns early and skips it. -/
def sessionOutcomeOfExit (final : LoopState) (e : Option LoopExit) : SessionOutcome :=
  match e with
  | some .stopSignal =>
    { unregistered := true, exit := some .stopSignal,
      startedEmitFailed := false, finalState := final }
  | some .noCandidates =>
    { unregistered := true, exit := some .noCandidates,
      startedEmitFailed := false, finalState := final }
  | some .emitFailure =>
    { unregistered := false, exit := some .emitFailure,
      startedEmitFailed := false, finalState := final }
  | none =>
    { unregistered := false, exit := none,
      startedEmitFailed := false, finalState := final }

/-- Session-level control flow of `run_game_monitor` (Windows revision):
seed candidates, register the session, emit `game-session-started`
(propagating failure with `?`, which skips `unregister_session`), run the
loop, and apply the registry effect of the loop's exit. -/
def run_game_monitor (enumerated : List Nat) (initial_pid : Nat)
    (initialPidRunning : Bool) (startedEmitOk : Bool)
    (inputs : List TickInput) : SessionOutcome :=
  let st0 := initialLoopState enumerated initial_pid initialPidRunning
  if !startedEmitOk then
    { unregistered := false, exit := none, startedEmitFailed := true, finalState := st0 }
  else
    let r := runLoop st0 inputs
    sessionOutcomeOfExit r.1 r.2.1

/-- Payload of the `game-session-ended` event built by `finalize_session`. -/
structure SessionEndedPayload where
  gameId : Nat
  startTime : Nat
  endTime : Nat
  totalMinutes : Nat
  totalSeconds : Nat
  processId : Nat
deriving DecidableEq, Repr

/-- The `finalize_session` computation from the source: divide the
accumulated seconds into whole minutes, round up when the remainder is at
least 30 seconds, and report the raw seconds unchanged alongside. -/
def finalize_session (gameId processId startTime accumulatedSeconds endTime : Nat) :
    SessionEndedPayload :=
  let totalMinutes := accumulatedSeconds / 60
  let remainderSeconds := accumulatedSeconds % 60
  let finalMinutes := if 30 ≤ remainderSeconds then totalMinutes + 1 else totalMinutes
  { gameId := gameId, startTime := startTime, endTime := endTime,
    totalMinutes := finalMinutes, totalSeconds := accumulatedSeconds,
    processId := processId }

/-- The return value of the full `finalize_session` from the source: it
ends by emitting `game-session-ended` and mapping that emission's failure
into `Err` with `.map_err(..)`, which becomes the monitor task's result
(only logged by `monitor_game`).  `emitOk` models the emission result;
the payload itself is computed by `finalize_session` either way. -/
def finalize_session_result (gameId processId startTime accumulatedSeconds endTime : Nat)
    (emitOk : Bool) : Except String SessionEndedPayload :=
  if emitOk then
    .ok (finalize_session gameId processId startTime accumulatedSeconds endTime)
  else .error "failed to emit game-session-ended event"

/-- The per-PID counting loop of `stop_game_session`: each snapshot PID
that is still running receives a termination attempt; a success adds one
to the count, a failure is only logged and the iteration proceeds. -/
def countTerminated (running terminateOk : Nat → Bool) : List Nat → Nat
  | [] => 0
  | p :: ps =>
    (if running p then if terminateOk p then 1 else 0 else 0) +
      countTerminated running terminateOk ps

/-- The `stop_game_session` function: look the game up in the global
session registry (an association list here), return an error when it is
absent, otherwise snapshot the candidate PIDs and best-effort terminate
them, returning `Ok(terminated_count)`. -/
def stop_game_session (sessions : List (Nat × List Nat)) (game_id : Nat)
    (running terminateOk : Nat → Bool) : Except String Nat :=
  match sessions.lookup game_id with
  | none => .error "no monitoring session found for game"
  | some pids => .ok (countTerminated running terminateOk pids)

/-- State owned and shared by the foreground-hook thread started by
`start_foreground_hook`: the locally remembered `last_pid`, and the
shared `MonitorState` fields plus candidate set it writes. -/
structure HookState where
  lastPid : Nat
  is_foreground : Bool
  best_pid : Nat
  candidatePids : List Nat
deriving DecidableEq, Repr

/-- Lowercasing of a string, character by character (the model of
`str.to_lowercase()`; strings are modelled as character lists so that
all operations are structurally recursive). -/
def lowerChars (cs : List Char) : List Char :=
  cs.map Char.toLower

/-- The model of `a.starts_with(b)` on strings as character lists. -/
def startsWithChars : List Char → List Char → Bool
  | _, [] => true
  | [], _ :: _ => false
  | c :: cs, d :: ds => c == d && startsWithChars cs ds

/-- Environment of one 200 ms poll of the hook thread: whether
`GetForegroundWindow` returned a window, the PID
`GetWindowThreadProcessId` resolved for it (0 on failure), the
`get_process_executable_path` oracle, and whether the
`game-process-switched` emission would succeed (the source only warns on
failure). -/
structure PollInput where
  hasWindow : Bool
  windowPid : Nat
  exePath : Nat → Option (List Char)
  emitOk : Bool

/-- One iteration of the hook thread's poll loop in
`start_foreground_hook`, translated branch-for-branch: no window clears
the foreground flag; PID 0 or an unchanged PID is skipped; a known
candidate sets foreground and best PID (emitting on change); an unknown
PID whose lowercased executable path starts with the lowercased game
directory is an escape — inserted into the candidate set, made
foreground and best, with an emission; anything else clears the
foreground flag.  `gameDirectoryLower` is the pre-lowered
`game_directory_lower` of the source. -/
def hookPoll (gameDirectoryLower : List Char) (st : HookState) (inp : PollInput) :
    HookState × List LoopEvent :=
  if !inp.hasWindow then ({ st with is_foreground := false }, [])
  else
    let newPid := inp.windowPid
    if newPid = 0 then (st, [])
    else if newPid = st.lastPid then (st, [])
    else
      let st1 := { st with lastPid := newPid }
      if st1.candidatePids.contains newPid then
        let changed := st1.best_pid != newPid
        let st2 := { st1 with is_foreground := true, best_pid := newPid }
        (st2, if changed then [LoopEvent.processSwitched newPid] else [])
      else
        match inp.exePath newPid with
        | some exePathStr =>
          if startsWithChars (lowerChars exePathStr) gameDirectoryLower then
            ({ st1 with candidatePids := newPid :: st1.candidatePids,
                        is_foreground := true, best_pid := newPid },
             [LoopEvent.processSwitched newPid])
          else ({ st1 with is_foreground := false }, [])
        | none => ({ st1 with is_foreground := false }, [])

/-- Result of a Rust computation that can panic: either a panic with its
message, or a normal value. -/
inductive PanicOr (α : Type)
  | panics (msg : String)
  | ok (a : α)
deriving DecidableEq, Repr

/-- The Linux `check_any_foreground` from the source: its body is
`Some(_candidate_pids[0])`, which panics with an index-out-of-bounds
error on an empty slice and otherwise yields the first candidate. -/
def check_any_foreground (candidate_pids : List Nat) : PanicOr (Option Nat) :=
  match candidate_pids with
  | [] => .panics "index out of bounds"
  | p :: _ => .ok (some p)

/-- The Linux `check_any_has_window` from the source: unimplemented,
always `None`. -/
def check_any_has_window (_candidate_pids : List Nat) : Option Nat :=
  none

/-- The Linux `select_best_from_candidates` from the source: try
`check_any_foreground` (which can panic), then `check_any_has_window`,
then the first candidate of a non-empty list, else `None`. -/
def select_best_from_candidates (candidate_pids : List Nat) : PanicOr (Option Nat) :=
  match check_any_foreground candidate_pids with
  | .panics msg => .panics msg
  | .ok (some p) => .ok (some p)
  | .ok none =>
    match check_any_has_window candidate_pids with
    | some p => .ok (some p)
    | none =>
      match candidate_pids with
      | p :: _ => .ok (some p)
      | [] => .ok none

/-- The `get_timestamp` helper: `duration_since(UNIX_EPOCH)` yields the
current Unix seconds, but its `Err` case (system clock before the epoch)
is turned into a panic by `.expect(..)`.  The input models the clock:
`some secs` for a normal clock, `none` for a clock before the epoch. -/
def get_timestamp (clock : Option Nat) : PanicOr Nat :=
  match clock with
  | some secs => .ok secs
  | none => .panics "system time error: time went backwards"

/-- The Windows `is_process_running` given the OS responses: `openOk`
models `OpenProcess` succeeding with a valid handle, `exitCode` the value
written by `GetExitCodeProcess` when it succeeds (`none` when that call
fails).  Every failure path yields `false`; nothing panics.
`STILL_ACTIVE = 259`. -/
def is_process_running (openOk : Bool) (exitCode : Option Nat) : Bool :=
  if openOk then
    match exitCode with
    | some code => code == 259
    | none => false
  else false

/-- Priority rule for choosing the best PID as the specification words
it (spec §4.5 Starting): currently-foreground candidate, then a
candidate owning any visible window, then the first enumerated
candidate, then the originally-supplied PID.  This definition follows
the spec, not the source; it exists to be compared with the source's
behaviour. -/
def select_best_priority_spec (foregroundCandidate windowCandidate : Option Nat)
    (enumerated : List Nat) (suppliedPid : Nat) : Nat :=
  match foregroundCandidate with
  | some p => p
  | none =>
    match windowCandidate with
    | some p => p
    | none =>
      match enumerated with
      | p :: _ => p
      | [] => suppliedPid

/-- Test for a `game-process-switched` event. -/
def isSwitchEvent : LoopEvent → Bool
  | .processSwitched _ => true
  | _ => false

/-- Whether a tick delivered a `game-process-switched` event. -/
def emitsSwitch (r : TickResult) : Bool :=
  (tickEvents r).any isSwitchEvent

/-- A tick with the stop signal set breaks out of the loop untouched. -/
theorem monitorTick_of_stop (s : LoopState) (i : TickInput) (h : i.stop = true) :
    monitorTick s i = .stopped s := by
  simp [monitorTick, h]

/-- An alive, foreground tick with a successful emission: the failure
counter resets, `last_best_pid` refreshes, the accumulator gains one
second, and a time-update event is delivered. -/
theorem monitorTick_alive_fg (s : LoopState) (i : TickInput) (h1 : i.stop = false)
    (h2 : i.bestPidRunning = true) (h3 : i.isForeground = true)
    (h4 : i.emitTimeUpdateOk = true) :
    monitorTick s i =
      .cont { s with consecutiveFailures := 0, lastBestPid := i.currentBestPid,
                     accumulatedSeconds := s.accumulatedSeconds + 1 }
        [LoopEvent.timeUpdate ((s.accumulatedSeconds + 1) / 60)
          (s.accumulatedSeconds + 1) i.currentBestPid] := by
  simp [monitorTick, h1, h2, h3, h4, TIME_UPDATE_INTERVAL_SECS, Nat.mod_one]

/-- An alive, foreground tick whose time-update emission fails: the loop
returns `Err` after still incrementing the accumulator. -/
theorem monitorTick_alive_fg_emitFail (s : LoopState) (i : TickInput) (h1 : i.stop = false)
    (h2 : i.bestPidRunning = true) (h3 : i.isForeground = true)
    (h4 : i.emitTimeUpdateOk = false) :
    monitorTick s i =
      .emitError { s with consecutiveFailures := 0, lastBestPid := i.currentBestPid,
                          accumulatedSeconds := s.accumulatedSeconds + 1 } := by
  simp [monitorTick, h1, h2, h3, h4, TIME_UPDATE_INTERVAL_SECS, Nat.mod_one]

/-- An alive, background tick: only the failure counter and
`last_best_pid` change; no time accrues and nothing is emitted. -/
theorem monitorTick_alive_bg (s : LoopState) (i : TickInput) (h1 : i.stop = false)
    (h2 : i.bestPidRunning = true) (h3 : i.isForeground = false) :
    monitorTick s i =
      .cont { s with consecutiveFailures := 0, lastBestPid := i.currentBestPid } [] := by
  simp [monitorTick, h1, h2, h3]

/-- A failed liveness check below the debounce threshold: the counter is
incremented and nothing else happens. -/
theorem monitorTick_fail_noRescan (s : LoopState) (i : TickInput) (h1 : i.stop = false)
    (h2 : i.bestPidRunning = false)
    (h3 : s.consecutiveFailures + 1 < MAX_CONSECUTIVE_FAILURES) :
    monitorTick s i =
      .cont { s with consecutiveFailures := s.consecutiveFailures + 1 } [] := by
  simp [monitorTick, h1, h2, Nat.not_le.mpr h3]

/-- A debounced failure whose rescan finds no candidates ends the session. -/
theorem monitorTick_fail_rescan_empty (s : LoopState) (i : TickInput) (h1 : i.stop = false)
    (h2 : i.bestPidRunning = false)
    (h3 : MAX_CONSECUTIVE_FAILURES ≤ s.consecutiveFailures + 1)
    (h4 : i.rescanPids = []) :
    monitorTick s i = .ended { s with consecutiveFailures := s.consecutiveFailures + 1 } := by
  simp [monitorTick, h1, h2, h3, h4]

/-- A debounced failure whose rescan finds candidates: the candidate set
is replaced, the first enumerated PID becomes best, the shared foreground
flag is cleared, the counter resets and a process-switched event is
delivered. -/
theorem monitorTick_fail_rescan_cons (s : LoopState) (i : TickInput) (h1 : i.stop = false)
    (h2 : i.bestPidRunning = false)
    (h3 : MAX_CONSECUTIVE_FAILURES ≤ s.consecutiveFailures + 1)
    (p : Nat) (ps : List Nat) (h4 : i.rescanPids = p :: ps) :
    monitorTick s i =
      .cont { s with candidatePids := p :: ps, bestPid := p, isForeground := false,
                     consecutiveFailures := 0, lastBestPid := p }
        [LoopEvent.processSwitched p] := by
  simp [monitorTick, h1, h2, h3, h4]

/-- The accumulator after one tick: incremented exactly on a non-stop,
alive, foreground tick; unchanged otherwise. -/
theorem tickState_accumulatedSeconds (s : LoopState) (i : TickInput) :
    (tickState (monitorTick s i)).accumulatedSeconds =
      if i.stop = false ∧ i.bestPidRunning = true ∧ i.isForeground = true
      then s.accumulatedSeconds + 1 else s.accumulatedSeconds := by
  by_cases h1 : i.stop
  · simp [monitorTick_of_stop s i h1, tickState, h1]
  · rw [Bool.not_eq_true] at h1
    by_cases h2 : i.bestPidRunning
    · by_cases h3 : i.isForeground
      · by_cases h4 : i.emitTimeUpdateOk
        · simp [monitorTick_alive_fg s i h1 h2 h3 h4, tickState, h1, h2, h3]
        · rw [Bool.not_eq_true] at h4
          simp [monitorTick_alive_fg_emitFail s i h1 h2 h3 h4, tickState, h1, h2, h3]
      · rw [Bool.not_eq_true] at h3
        simp [monitorTick_alive_bg s i h1 h2 h3, tickState, h3]
    · rw [Bool.not_eq_true] at h2
      by_cases h5 : MAX_CONSECUTIVE_FAILURES ≤ s.consecutiveFailures + 1
      · cases h6 : i.rescanPids with
        | nil => simp [monitorTick_fail_rescan_empty s i h1 h2 h5 h6, tickState, h2]
        | cons p ps => simp [monitorTick_fail_rescan_cons s i h1 h2 h5 p ps h6, tickState, h2]
      · rw [Nat.not_le] at h5
        simp [monitorTick_fail_noRescan s i h1 h2 h5, tickState, h2]

/-- One tick can add at most one second to the accumulator. -/
theorem tickState_accum_le (s : LoopState) (i : TickInput) :
    (tickState (monitorTick s i)).accumulatedSeconds ≤ s.accumulatedSeconds + 1 := by
  rw [tickState_accumulatedSeconds]
  split <;> omega

/-- The accumulator never decreases across a tick. -/
theorem tickState_accum_ge (s : LoopState) (i : TickInput) :
    s.accumulatedSeconds ≤ (tickState (monitorTick s i)).accumulatedSeconds := by
  rw [tickState_accumulatedSeconds]
  split <;> omega

/-- Over any finite trace, the accumulator grows by at most the number of
ticks consumed. -/
theorem runLoop_accum_le (ins : List TickInput) (s : LoopState) :
    (runLoop s ins).1.accumulatedSeconds ≤ s.accumulatedSeconds + ins.length := by
  induction ins generalizing s with
  | nil => simp [runLoop]
  | cons i rest ih =>
    have hle := tickState_accum_le s i
    cases hm : monitorTick s i with
    | stopped s1 =>
      rw [hm] at hle
      simp only [runLoop, hm, tickState] at hle ⊢
      simp
      omega
    | ended s1 =>
      rw [hm] at hle
      simp only [runLoop, hm, tickState] at hle ⊢
      simp
      omega
    | emitError s1 =>
      rw [hm] at hle
      simp only [runLoop, hm, tickState] at hle ⊢
      simp
      omega
    | cont s1 evs =>
      rw [hm] at hle
      simp only [runLoop, hm, tickState] at hle ⊢
      have := ih s1
      simp
      omega

/-- C1: for every monitoring session the accumulator is monotonically
non-decreasing, gains at most one second per tick, gains that second only
on a tick where the loop is not stopping, the best PID is alive and the
game is judged foreground, and over any trace never exceeds the number
of elapsed ticks — hence never exceeds the wall-clock time `T -
start_time`, of which the tick count is a lower bound (one tick per
second, skipping missed ticks). -/
theorem active_time_bounded_and_monotone :
    (∀ s i, s.accumulatedSeconds ≤ (tickState (monitorTick s i)).accumulatedSeconds
      ∧ (tickState (monitorTick s i)).accumulatedSeconds ≤ s.accumulatedSeconds + 1)
    ∧ (∀ s i, (tickState (monitorTick s i)).accumulatedSeconds = s.accumulatedSeconds + 1 →
        i.stop = false ∧ i.bestPidRunning = true ∧ i.isForeground = true)
    ∧ (∀ ins s, (runLoop s ins).1.accumulatedSeconds ≤ s.accumulatedSeconds + ins.length)
    ∧ (∀ ins s (T : Nat), s.accumulatedSeconds = 0 → ins.length ≤ T →
        (runLoop s ins).1.accumulatedSeconds ≤ T) := by
  refine ⟨fun s i => ⟨tickState_accum_ge s i, tickState_accum_le s i⟩, ?_,
    fun ins s => runLoop_accum_le ins s, ?_⟩
  · intro s i h
    rw [tickState_accumulatedSeconds] at h
    by_cases hc : i.stop = false ∧ i.bestPidRunning = true ∧ i.isForeground = true
    · exact hc
    · rw [if_neg hc] at h
      omega
  · intro ins s T h0 hT
    have := runLoop_accum_le ins s
    omega

/-- Witness for C1: a one-tick trace from a fresh session stays within a
wall-clock bound of 5 seconds. -/
theorem active_time_witness :
    (runLoop
      { accumulatedSeconds := 0, consecutiveFailures := 0, lastBestPid := 1, bestPid := 1,
        isForeground := false, candidatePids := [1] }
      [{ stop := false, isForeground := true, currentBestPid := 1, bestPidRunning := true,
         rescanPids := [], emitTimeUpdateOk := true,
         emitSwitchOk := true }]).1.accumulatedSeconds ≤ 5 :=
  active_time_bounded_and_monotone.2.2.2
    [{ stop := false, isForeground := true, currentBestPid := 1, bestPidRunning := true,
       rescanPids := [], emitTimeUpdateOk := true, emitSwitchOk := true }]
    { accumulatedSeconds := 0, consecutiveFailures := 0, lastBestPid := 1, bestPid := 1,
      isForeground := false, candidatePids := [1] }
    5 rfl (by decide)

/-- C2: in the Tracking state a rescan needs at least 3 consecutive
liveness failures (the counter must already be at 2 when a tick fails), a
successful check resets the counter and cannot rescan, a sub-threshold
failure only increments the counter, a single transient failure from a
clean counter followed by a success neither rescans nor emits
process-switched and leaves the candidate set untouched, and exactly
three consecutive failures from a clean counter do trigger a rescan on
the third. -/
theorem rescan_debounce_three_failures :
    (∀ s i, tickRescans s i = true →
        i.stop = false ∧ i.bestPidRunning = false ∧ 2 ≤ s.consecutiveFailures)
    ∧ (∀ s i, tickRescans s i = false →
        emitsSwitch (monitorTick s i) = false
        ∧ (tickState (monitorTick s i)).candidatePids = s.candidatePids)
    ∧ (∀ s i, i.stop = false → i.bestPidRunning = true →
        (tickState (monitorTick s i)).consecutiveFailures = 0 ∧ tickRescans s i = false)
    ∧ (∀ s i, i.stop = false → i.bestPidRunning = false → tickRescans s i = false →
        monitorTick s i = .cont { s with consecutiveFailures := s.consecutiveFailures + 1 } [])
    ∧ (∀ s i₁ i₂, s.consecutiveFailures = 0 →
        i₁.stop = false → i₁.bestPidRunning = false →
        i₂.stop = false → i₂.bestPidRunning = true →
        tickRescans s i₁ = false
        ∧ tickRescans (tickState (monitorTick s i₁)) i₂ = false
        ∧ emitsSwitch (monitorTick s i₁) = false
        ∧ emitsSwitch (monitorTick (tickState (monitorTick s i₁)) i₂) = false)
    ∧ (∀ s i₁ i₂ i₃, s.consecutiveFailures = 0 →
        i₁.stop = false → i₁.bestPidRunning = false →
        i₂.stop = false → i₂.bestPidRunning = false →
        i₃.stop = false → i₃.bestPidRunning = false →
        tickRescans s i₁ = false
        ∧ tickRescans (tickState (monitorTick s i₁)) i₂ = false
        ∧ tickRescans (tickState (monitorTick (tickState (monitorTick s i₁)) i₂)) i₃ = true) := by
  have hNoSwitchAlive : ∀ s (i : TickInput), i.stop = false → i.bestPidRunning = true →
      emitsSwitch (monitorTick s i) = false := by
    intro s i h1 h2
    by_cases h3 : i.isForeground
    · by_cases h4 : i.emitTimeUpdateOk
      · simp [monitorTick_alive_fg s i h1 h2 h3 h4, emitsSwitch, tickEvents, isSwitchEvent]
      · rw [Bool.not_eq_true] at h4
        simp [monitorTick_alive_fg_emitFail s i h1 h2 h3 h4, emitsSwitch, tickEvents]
    · rw [Bool.not_eq_true] at h3
      simp [monitorTick_alive_bg s i h1 h2 h3, emitsSwitch, tickEvents, isSwitchEvent]
  have hCfAlive : ∀ s (i : TickInput), i.stop = false → i.bestPidRunning = true →
      (tickState (monitorTick s i)).consecutiveFailures = 0 := by
    intro s i h1 h2
    by_cases h3 : i.isForeground
    · by_cases h4 : i.emitTimeUpdateOk
      · simp [monitorTick_alive_fg s i h1 h2 h3 h4, tickState]
      · rw [Bool.not_eq_true] at h4
        simp [monitorTick_alive_fg_emitFail s i h1 h2 h3 h4, tickState]
    · rw [Bool.not_eq_true] at h3
      simp [monitorTick_alive_bg s i h1 h2 h3, tickState]
  have hFailStep : ∀ s (i : TickInput), i.stop = false → i.bestPidRunning = false →
      tickRescans s i = false →
      monitorTick s i = .cont { s with consecutiveFailures := s.consecutiveFailures + 1 } [] := by
    intro s i h1 h2 h
    have h5 : s.consecutiveFailures + 1 < MAX_CONSECUTIVE_FAILURES := by
      simp [tickRescans, h1, h2, MAX_CONSECUTIVE_FAILURES] at h
      simp [MAX_CONSECUTIVE_FAILURES]
      omega
    exact monitorTick_fail_noRescan s i h1 h2 h5
  refine ⟨?_, ?_, ?_, hFailStep, ?_, ?_⟩
  · intro s i h
    simp [tickRescans, MAX_CONSECUTIVE_FAILURES] at h
    exact ⟨h.1.1, h.1.2, h.2⟩
  · intro s i h
    by_cases h1 : i.stop
    · simp [monitorTick_of_stop s i h1, emitsSwitch, tickEvents, tickState]
    · rw [Bool.not_eq_true] at h1
      by_cases h2 : i.bestPidRunning
      · refine ⟨hNoSwitchAlive s i h1 h2, ?_⟩
        by_cases h3 : i.isForeground
        · by_cases h4 : i.emitTimeUpdateOk
          · simp [monitorTick_alive_fg s i h1 h2 h3 h4, tickState]
          · rw [Bool.not_eq_true] at h4
            simp [monitorTick_alive_fg_emitFail s i h1 h2 h3 h4, tickState]
        · rw [Bool.not_eq_true] at h3
          simp [monitorTick_alive_bg s i h1 h2 h3, tickState]
      · rw [Bool.not_eq_true] at h2
        have hr := hFailStep s i h1 h2 h
        simp [hr, emitsSwitch, tickEvents, tickState]
  · intro s i h1 h2
    refine ⟨hCfAlive s i h1 h2, ?_⟩
    simp [tickRescans, h1, h2]
  · intro s i₁ i₂ h0 ha hb hc hd
    have r1 : tickRescans s i₁ = false := by
      simp [tickRescans, ha, hb, MAX_CONSECUTIVE_FAILURES, h0]
    have e1 := hFailStep s i₁ ha hb r1
    refine ⟨r1, ?_, ?_, ?_⟩
    · simp [tickRescans, hc, hd]
    · simp [e1, emitsSwitch, tickEvents]
    · exact hNoSwitchAlive _ i₂ hc hd
  · intro s i₁ i₂ i₃ h0 ha hb hc hd he hf
    have r1 : tickRescans s i₁ = false := by
      simp [tickRescans, ha, hb, MAX_CONSECUTIVE_FAILURES, h0]
    have e1 := hFailStep s i₁ ha hb r1
    have s1eq : tickState (monitorTick s i₁)
        = { s with consecutiveFailures := s.consecutiveFailures + 1 } := by
      rw [e1]
      rfl
    have r2 : tickRescans (tickState (monitorTick s i₁)) i₂ = false := by
      rw [s1eq]
      simp [tickRescans, hc, hd, MAX_CONSECUTIVE_FAILURES, h0]
    have e2 := hFailStep _ i₂ hc hd r2
    have s2eq : tickState (monitorTick (tickState (monitorTick s i₁)) i₂)
        = { s with consecutiveFailures := s.consecutiveFailures + 1 + 1 } := by
      rw [e2, s1eq]
      rfl
    refine ⟨r1, r2, ?_⟩
    rw [s2eq]
    simp [tickRescans, he, hf, MAX_CONSECUTIVE_FAILURES, h0]

/-- Witness for C2: from a clean counter, one failed liveness check
followed by a success neither rescans nor emits process-switched. -/
theorem rescan_debounce_witness :
    tickRescans
      { accumulatedSeconds := 0, consecutiveFailures := 0, lastBestPid := 1, bestPid := 1,
        isForeground := false, candidatePids := [1] }
      { stop := false, isForeground := false, currentBestPid := 1, bestPidRunning := false,
        rescanPids := [], emitTimeUpdateOk := true, emitSwitchOk := true } = false
    ∧ tickRescans
        (tickState (monitorTick
          { accumulatedSeconds := 0, consecutiveFailures := 0, lastBestPid := 1, bestPid := 1,
            isForeground := false, candidatePids := [1] }
          { stop := false, isForeground := false, currentBestPid := 1, bestPidRunning := false,
            rescanPids := [], emitTimeUpdateOk := true, emitSwitchOk := true }))
        { stop := false, isForeground := true, currentBestPid := 1, bestPidRunning := true,
          rescanPids := [], emitTimeUpdateOk := true, emitSwitchOk := true } = false
    ∧ emitsSwitch (monitorTick
        { accumulatedSeconds := 0, consecutiveFailures := 0, lastBestPid := 1, bestPid := 1,
          isForeground := false, candidatePids := [1] }
        { stop := false, isForeground := false, currentBestPid := 1, bestPidRunning := false,
          rescanPids := [], emitTimeUpdateOk := true, emitSwitchOk := true }) = false
    ∧ emitsSwitch (monitorTick
        (tickState (monitorTick
          { accumulatedSeconds := 0, consecutiveFailures := 0, lastBestPid := 1, bestPid := 1,
            isForeground := false, candidatePids := [1] }
          { stop := false, isForeground := false, currentBestPid := 1, bestPidRunning := false,
            rescanPids := [], emitTimeUpdateOk := true, emitSwitchOk := true }))
        { stop := false, isForeground := true, currentBestPid := 1, bestPidRunning := true,
          rescanPids := [], emitTimeUpdateOk := true, emitSwitchOk := true }) = false :=
  rescan_debounce_three_failures.2.2.2.2.1
    { accumulatedSeconds := 0, consecutiveFailures := 0, lastBestPid := 1, bestPid := 1,
      isForeground := false, candidatePids := [1] }
    { stop := false, isForeground := false, currentBestPid := 1, bestPidRunning := false,
      rescanPids := [], emitTimeUpdateOk := true, emitSwitchOk := true }
    { stop := false, isForeground := true, currentBestPid := 1, bestPidRunning := true,
      rescanPids := [], emitTimeUpdateOk := true, emitSwitchOk := true }
    rfl rfl rfl rfl rfl

/-- C6: for a registered session, `stop_game_session` attempts
termination of every still-running snapshot candidate, a per-PID failure
does not abort the rest, and the call returns `Ok` with the count of
candidates actually terminated: exactly the snapshot PIDs that are alive
and whose termination succeeds. -/
theorem stop_terminates_best_effort (sessions : List (Nat × List Nat)) (game_id : Nat)
    (running terminateOk : Nat → Bool) (pids : List Nat)
    (h : sessions.lookup game_id = some pids) :
    stop_game_session sessions game_id running terminateOk
      = .ok ((pids.filter (fun p => running p && terminateOk p)).length) := by
  have hc : ∀ l : List Nat, countTerminated running terminateOk l
      = (l.filter (fun p => running p && terminateOk p)).length := by
    intro l
    induction l with
    | nil => rfl
    | cons p ps ih =>
      by_cases hr : running p <;> by_cases ht : terminateOk p <;>
        simp [countTerminated, List.filter_cons, hr, ht, ih, Nat.add_comm]
  simp [stop_game_session, h, hc]

/-- Witness for C6: three alive candidates with one failing termination
yield `Ok(2)`, not an error. -/
theorem stop_terminates_witness :
    stop_game_session [(1, [10, 20, 30])] 1 (fun _ => true) (fun p => p != 20) = .ok 2 := by
  have h := stop_terminates_best_effort [(1, [10, 20, 30])] 1 (fun _ => true)
    (fun p => p != 20) [10, 20, 30] rfl
  simpa using h

/-- C9: session finalization rounds the accumulated seconds to whole
minutes half-up — final minutes are `seconds / 60` plus one when the
remainder is at least 30 — with 29, 30, 90, 91 seconds yielding 0, 1, 2,
2 minutes, while the reported `totalSeconds` stays the raw count. -/
theorem finalize_rounding_half_up :
    (∀ g p st acc et, (finalize_session g p st acc et).totalMinutes
        = acc / 60 + (if 30 ≤ acc % 60 then 1 else 0)
      ∧ (finalize_session g p st acc et).totalSeconds = acc)
    ∧ (finalize_session 0 0 0 29 0).totalMinutes = 0
    ∧ (finalize_session 0 0 0 30 0).totalMinutes = 1
    ∧ (finalize_session 0 0 0 90 0).totalMinutes = 2
    ∧ (finalize_session 0 0 0 91 0).totalMinutes = 2 := by
  refine ⟨fun g p st acc et => ⟨?_, rfl⟩, by decide, by decide, by decide, by decide⟩
  by_cases h : 30 ≤ acc % 60 <;> simp [finalize_session, h]

/-- C10: contrary to the no-panic requirement, the Linux
`check_any_foreground` indexes `candidate_pids[0]` unconditionally (its
own doc comment says it returns `None`) and therefore panics on an empty
candidate list, `select_best_from_candidates` inherits that panic before
its own emptiness check can run, and `get_timestamp` panics via
`.expect` when the system clock reads before the Unix epoch; the
liveness check itself is total. -/
theorem monitor_panics_on_adversarial_input :
    check_any_foreground [] = .panics "index out of bounds"
    ∧ select_best_from_candidates [] = .panics "index out of bounds"
    ∧ get_timestamp none = .panics "system time error: time went backwards"
    ∧ ∀ openOk exitCode, (is_process_running openOk exitCode = true
        ∨ is_process_running openOk exitCode = false) :=
  ⟨rfl, rfl, rfl, fun _ _ => Bool.eq_false_or_eq_true _⟩

/-- C8: escape detection — when the foreground window's PID `B` is
nonzero, newly observed, not a tracked candidate, and its executable
path lies (case-insensitively) under the game directory, the next hook
poll inserts `B` into the shared candidate set, marks the game
foreground, makes `B` the best PID, and emits a process-switched
notification. -/
theorem escape_detection_adds_candidate (gameDirectoryLower : List Char) (st : HookState)
    (inp : PollInput) (B : Nat) (path : List Char)
    (hwin : inp.hasWindow = true) (hpid : inp.windowPid = B) (hB0 : B ≠ 0)
    (hlast : B ≠ st.lastPid) (hmem : B ∉ st.candidatePids)
    (hexe : inp.exePath B = some path)
    (hstarts : startsWithChars (lowerChars path) gameDirectoryLower = true) :
    (hookPoll gameDirectoryLower st inp).1.candidatePids = B :: st.candidatePids
    ∧ (hookPoll gameDirectoryLower st inp).1.is_foreground = true
    ∧ (hookPoll gameDirectoryLower st inp).1.best_pid = B
    ∧ (hookPoll gameDirectoryLower st inp).2 = [LoopEvent.processSwitched B] := by
  simp [hookPoll, hwin, hpid, hB0, hlast, hmem, hexe, hstarts]

/-- Witness for C8: a concrete escape — candidate set `{10}`, foreground
PID 20 with an executable inside the game directory — is adopted by one
poll. -/
theorem escape_detection_witness :
    (hookPoll ['g', 'a', 'm', 'e']
      { lastPid := 10, is_foreground := false, best_pid := 10, candidatePids := [10] }
      { hasWindow := true, windowPid := 20,
        exePath := fun p => if p = 20 then some ['G', 'a', 'm', 'e', '.', 'e'] else none,
        emitOk := true }).1.candidatePids = 20 :: [10]
    ∧ (hookPoll ['g', 'a', 'm', 'e']
        { lastPid := 10, is_foreground := false, best_pid := 10, candidatePids := [10] }
        { hasWindow := true, windowPid := 20,
          exePath := fun p => if p = 20 then some ['G', 'a', 'm', 'e', '.', 'e'] else none,
          emitOk := true }).1.is_foreground = true
    ∧ (hookPoll ['g', 'a', 'm', 'e']
        { lastPid := 10, is_foreground := false, best_pid := 10, candidatePids := [10] }
        { hasWindow := true, windowPid := 20,
          exePath := fun p => if p = 20 then some ['G', 'a', 'm', 'e', '.', 'e'] else none,
          emitOk := true }).1.best_pid = 20
    ∧ (hookPoll ['g', 'a', 'm', 'e']
        { lastPid := 10, is_foreground := false, best_pid := 10, candidatePids := [10] }
        { hasWindow := true, windowPid := 20,
          exePath := fun p => if p = 20 then some ['G', 'a', 'm', 'e', '.', 'e'] else none,
          emitOk := true }).2 = [LoopEvent.processSwitched 20] :=
  escape_detection_adds_candidate ['g', 'a', 'm', 'e']
    { lastPid := 10, is_foreground := false, best_pid := 10, candidatePids := [10] }
    { hasWindow := true, windowPid := 20,
      exePath := fun p => if p = 20 then some ['G', 'a', 'm', 'e', '.', 'e'] else none,
      emitOk := true }
    20 ['G', 'a', 'm', 'e', '.', 'e'] rfl rfl (by decide) (by decide) (by decide) rfl
    (by decide)

/-- C3 counterexample: at initial seeding with enumerated candidates
`[5]`, supplied PID 7 not running, the candidate set is the non-empty
`[5]` while `best_pid` is initialized to 7, which is not a member — the
claimed invariant fails at a reachable initial state. -/
theorem best_pid_membership_counterexample :
    seed_candidate_pids [5] 7 false = [5]
    ∧ (MonitorState.new 7).best_pid = 7
    ∧ ([5] : List Nat) ≠ []
    ∧ (7 : Nat) ∉ ([5] : List Nat) :=
  ⟨rfl, rfl, by decide, by decide⟩

/-- C3 amended: `best_pid ∈ candidate_pids` is established by initial
seeding whenever the supplied PID is enumerated or still running, is
established by a successful rescan, is preserved by every hook poll, and
the loop's alive path changes neither the candidate set nor the best
PID; only a seeding with a dead, unenumerated supplied PID violates it. -/
theorem best_pid_membership_amended :
    (∀ (enumerated : List Nat) initial_pid r,
        (initial_pid ∈ enumerated ∨ r = true) →
        (MonitorState.new initial_pid).best_pid
          ∈ seed_candidate_pids enumerated initial_pid r)
    ∧ (∀ s i p ps, i.stop = false → i.bestPidRunning = false →
        MAX_CONSECUTIVE_FAILURES ≤ s.consecutiveFailures + 1 → i.rescanPids = p :: ps →
        (tickState (monitorTick s i)).bestPid
          ∈ (tickState (monitorTick s i)).candidatePids)
    ∧ (∀ dir st inp, st.best_pid ∈ st.candidatePids →
        (hookPoll dir st inp).1.best_pid ∈ (hookPoll dir st inp).1.candidatePids)
    ∧ (∀ s i, i.stop = false → i.bestPidRunning = true →
        (tickState (monitorTick s i)).candidatePids = s.candidatePids
        ∧ (tickState (monitorTick s i)).bestPid = s.bestPid) := by
  refine ⟨?_, ?_, ?_, ?_⟩
  · intro enumerated initial_pid r h
    by_cases hc : initial_pid ∈ enumerated
    · simp [seed_candidate_pids, hc, MonitorState.new]
    · rcases h with h | h
      · exact absurd h hc
      · simp [seed_candidate_pids, hc, h, MonitorState.new]
  · intro s i p ps h1 h2 h3 h4
    simp [monitorTick_fail_rescan_cons s i h1 h2 h3 p ps h4, tickState]
  · intro dir st inp h
    by_cases hw : inp.hasWindow
    · by_cases h0 : inp.windowPid = 0
      · simp [hookPoll, hw, h0, h]
      · by_cases hl : inp.windowPid = st.lastPid
        · simp [hookPoll, hw, h0, hl, h]
        · by_cases hm : inp.windowPid ∈ st.candidatePids
          · simp [hookPoll, hw, h0, hl, hm]
          · cases he : inp.exePath inp.windowPid with
            | none => simp [hookPoll, hw, h0, hl, hm, he, h]
            | some pathStr =>
              by_cases hs : startsWithChars (lowerChars pathStr) dir
              · simp [hookPoll, hw, h0, hl, hm, he, hs]
              · rw [Bool.not_eq_true] at hs
                simp [hookPoll, hw, h0, hl, hm, he, hs, h]
    · rw [Bool.not_eq_true] at hw
      simp [hookPoll, hw, h]
  · intro s i h1 h2
    by_cases h3 : i.isForeground
    · by_cases h4 : i.emitTimeUpdateOk
      · simp [monitorTick_alive_fg s i h1 h2 h3 h4, tickState]
      · rw [Bool.not_eq_true] at h4
        simp [monitorTick_alive_fg_emitFail s i h1 h2 h3 h4, tickState]
    · rw [Bool.not_eq_true] at h3
      simp [monitorTick_alive_bg s i h1 h2 h3, tickState]

/-- Witness for C3 amended: a hook poll on a state satisfying the
invariant yields a state still satisfying it. -/
theorem best_pid_membership_witness :
    (hookPoll ['g', 'a', 'm', 'e']
      { lastPid := 0, is_foreground := false, best_pid := 10, candidatePids := [10] }
      { hasWindow := true, windowPid := 10, exePath := fun _ => none,
        emitOk := true }).1.best_pid
      ∈ (hookPoll ['g', 'a', 'm', 'e']
        { lastPid := 0, is_foreground := false, best_pid := 10, candidatePids := [10] }
        { hasWindow := true, windowPid := 10, exePath := fun _ => none,
          emitOk := true }).1.candidatePids :=
  best_pid_membership_amended.2.2.1 ['g', 'a', 'm', 'e']
    { lastPid := 0, is_foreground := false, best_pid := 10, candidatePids := [10] }
    { hasWindow := true, windowPid := 10, exePath := fun _ => none, emitOk := true }
    (by decide)

/-- With a successful session-started emission, `run_game_monitor` is
the registry effect of the loop's exit on the seeded initial state. -/
theorem run_game_monitor_ok (enumerated : List Nat) (initial_pid : Nat)
    (initialPidRunning : Bool) (inputs : List TickInput) :
    run_game_monitor enumerated initial_pid initialPidRunning true inputs
      = sessionOutcomeOfExit
          (runLoop (initialLoopState enumerated initial_pid initialPidRunning) inputs).1
          (runLoop (initialLoopState enumerated initial_pid initialPidRunning) inputs).2.1 :=
  rfl

/-- The recorded exit of a session outcome is the loop exit it was built
from. -/
theorem sessionOutcomeOfExit_exit (final : LoopState) (e : Option LoopExit) :
    (sessionOutcomeOfExit final e).exit = e := by
  cases e with
  | none => rfl
  | some x => cases x <;> rfl

/-- C4 counterexample: the Windows revision does not select the initial
or post-rescan best PID by the claimed priority rule.  With enumerated
candidates `[5]`, candidate 5 currently foreground and supplied PID 7,
the priority rule picks 5 but `MonitorState::new` sets `best_pid = 7`;
and a rescan returning `[5, 6]` with 6 foreground should pick 6 by
priority, but the loop takes the first element 5. -/
theorem best_pid_priority_counterexample :
    ((MonitorState.new 7).best_pid = 7
      ∧ select_best_priority_spec (some 5) none [5] 7 = 5
      ∧ (7 : Nat) ≠ 5)
    ∧ ((tickState (monitorTick
        { accumulatedSeconds := 0, consecutiveFailures := 2, lastBestPid := 7, bestPid := 7,
          isForeground := false, candidatePids := [7] }
        { stop := false, isForeground := false, currentBestPid := 7, bestPidRunning := false,
          rescanPids := [5, 6], emitTimeUpdateOk := true, emitSwitchOk := true })).bestPid = 5
      ∧ select_best_priority_spec (some 6) none [5, 6] 7 = 6
      ∧ (5 : Nat) ≠ 6) :=
  ⟨⟨rfl, rfl, by decide⟩, ⟨by decide, rfl, by decide⟩⟩

/-- C4 amended: on Windows the initial best PID is exactly the
originally-supplied PID regardless of the candidate set, and after a
rescan the new best PID is the first element of the fresh enumeration;
the foreground > visible-window > first-candidate priority chain exists
only in the Linux `select_best_from_candidates`, which has no
supplied-PID fallback, degenerately resolves to the first candidate
(its foreground probe returns `candidate_pids[0]`), and panics on an
empty list. -/
theorem best_pid_selection_amended :
    (∀ p, (MonitorState.new p).best_pid = p)
    ∧ (∀ s i p ps, i.stop = false → i.bestPidRunning = false →
        MAX_CONSECUTIVE_FAILURES ≤ s.consecutiveFailures + 1 → i.rescanPids = p :: ps →
        (tickState (monitorTick s i)).bestPid = p)
    ∧ (∀ p ps, select_best_from_candidates (p :: ps) = .ok (some p))
    ∧ select_best_from_candidates [] = .panics "index out of bounds" := by
  refine ⟨fun p => rfl, ?_, fun p ps => rfl, rfl⟩
  intro s i p ps h1 h2 h3 h4
  simp [monitorTick_fail_rescan_cons s i h1 h2 h3 p ps h4, tickState]

/-- Witness for C4 amended: a rescan that enumerates `[4, 8]` installs 4
as best PID. -/
theorem best_pid_selection_witness :
    (tickState (monitorTick
      { accumulatedSeconds := 0, consecutiveFailures := 2, lastBestPid := 9, bestPid := 9,
        isForeground := false, candidatePids := [9] }
      { stop := false, isForeground := false, currentBestPid := 9, bestPidRunning := false,
        rescanPids := [4, 8], emitTimeUpdateOk := true, emitSwitchOk := true })).bestPid = 4 :=
  best_pid_selection_amended.2.1
    { accumulatedSeconds := 0, consecutiveFailures := 2, lastBestPid := 9, bestPid := 9,
      isForeground := false, candidatePids := [9] }
    { stop := false, isForeground := false, currentBestPid := 9, bestPidRunning := false,
      rescanPids := [4, 8], emitTimeUpdateOk := true, emitSwitchOk := true }
    4 [8] rfl rfl (by decide) rfl

/-- C5 counterexample: the monitor loop's outcome is not independent of
emission success — on an alive foreground tick, a failed
`game-time-update` emission turns the transition from a normal
continuation into an error return. -/
theorem emission_failure_counterexample :
    monitorTick
      { accumulatedSeconds := 0, consecutiveFailures := 0, lastBestPid := 3, bestPid := 3,
        isForeground := true, candidatePids := [3] }
      { stop := false, isForeground := true, currentBestPid := 3, bestPidRunning := true,
        rescanPids := [], emitTimeUpdateOk := true, emitSwitchOk := true }
    ≠ monitorTick
      { accumulatedSeconds := 0, consecutiveFailures := 0, lastBestPid := 3, bestPid := 3,
        isForeground := true, candidatePids := [3] }
      { stop := false, isForeground := true, currentBestPid := 3, bestPidRunning := true,
        rescanPids := [], emitTimeUpdateOk := false, emitSwitchOk := true } := by
  decide

/-- C5 amended: the emission result of `game-process-switched` is
discarded (`.ok()` in the loop, a logged warning in the hook) and never
affects any transition; but a failed `game-time-update` emission is
propagated with `?`, aborting the loop with an error after the second
was already accumulated, a failed `game-session-started` emission aborts
the session before the loop starts, leaving it registered, and a failed
`game-session-ended` emission makes `finalize_session` — and hence the
monitor task — return an error instead of `Ok`. -/
theorem emission_failure_amended :
    (∀ s (i : TickInput) b,
        monitorTick s { i with emitSwitchOk := b } = monitorTick s i)
    ∧ (∀ (dir : List Char) st (inp : PollInput) b,
        hookPoll dir st { inp with emitOk := b } = hookPoll dir st inp)
    ∧ (∀ s i, i.stop = false → i.bestPidRunning = true → i.isForeground = true →
        i.emitTimeUpdateOk = false →
        monitorTick s i =
          .emitError { s with consecutiveFailures := 0,
                              lastBestPid := i.currentBestPid,
                              accumulatedSeconds := s.accumulatedSeconds + 1 })
    ∧ (∀ (enumerated : List Nat) p r (ins : List TickInput),
        (run_game_monitor enumerated p r false ins).startedEmitFailed = true
        ∧ (run_game_monitor enumerated p r false ins).unregistered = false)
    ∧ (∀ g p st acc et,
        finalize_session_result g p st acc et false
          = .error "failed to emit game-session-ended event"
        ∧ finalize_session_result g p st acc et true
          = .ok (finalize_session g p st acc et)) := by
  refine ⟨?_, ?_, ?_, fun enumerated p r ins => ⟨rfl, rfl⟩,
    fun g p st acc et => ⟨rfl, rfl⟩⟩
  · intro s i b
    cases i
    rfl
  · intro dir st inp b
    cases inp
    rfl
  · intro s i h1 h2 h3 h4
    exact monitorTick_alive_fg_emitFail s i h1 h2 h3 h4

/-- Witness for C5 amended: a concrete alive foreground tick whose
time-update emission fails returns the error exit with the second
accumulated. -/
theorem emission_failure_witness :
    monitorTick
      { accumulatedSeconds := 7, consecutiveFailures := 1, lastBestPid := 2, bestPid := 2,
        isForeground := true, candidatePids := [2] }
      { stop := false, isForeground := true, currentBestPid := 4, bestPidRunning := true,
        rescanPids := [], emitTimeUpdateOk := false, emitSwitchOk := true }
    = .emitError
        { accumulatedSeconds := 8, consecutiveFailures := 0, lastBestPid := 4, bestPid := 2,
          isForeground := true, candidatePids := [2] } :=
  emission_failure_amended.2.2.1
    { accumulatedSeconds := 7, consecutiveFailures := 1, lastBestPid := 2, bestPid := 2,
      isForeground := true, candidatePids := [2] }
    { stop := false, isForeground := true, currentBestPid := 4, bestPidRunning := true,
      rescanPids := [], emitTimeUpdateOk := false, emitSwitchOk := true }
    rfl rfl rfl rfl

/-- C7 counterexample: a monitor loop that exits through a failed
`game-time-update` emission has ended, yet the session is not removed
from the registry — `unregister_session` is skipped by the `?` early
return, so a later `stop` for this game would not report "no such
session". -/
theorem unregister_skip_counterexample :
    (run_game_monitor [1] 1 true true
      [{ stop := false, isForeground := true, currentBestPid := 1, bestPidRunning := true,
         rescanPids := [], emitTimeUpdateOk := false, emitSwitchOk := true }]).exit
      = some LoopExit.emitFailure
    ∧ (run_game_monitor [1] 1 true true
        [{ stop := false, isForeground := true, currentBestPid := 1, bestPidRunning := true,
           rescanPids := [], emitTimeUpdateOk := false, emitSwitchOk := true }]).unregistered
      = false := by
  decide

/-- C7 amended: a monitor loop that exits through a `break` (external
stop signal or a rescan that found no candidates) does remove the
session from the registry, and `stop` for an unregistered game ID
returns the "no such session" error; but an exit through a propagated
emission failure leaves the session registered. -/
theorem unregister_and_stop_amended :
    (∀ (enumerated : List Nat) p r (ins : List TickInput),
        ((run_game_monitor enumerated p r true ins).exit = some LoopExit.stopSignal
          ∨ (run_game_monitor enumerated p r true ins).exit = some LoopExit.noCandidates) →
        (run_game_monitor enumerated p r true ins).unregistered = true)
    ∧ (∀ (sessions : List (Nat × List Nat)) game_id running terminateOk,
        sessions.lookup game_id = none →
        stop_game_session sessions game_id running terminateOk
          = .error "no monitoring session found for game") := by
  constructor
  · intro enumerated p r ins hexit
    rw [run_game_monitor_ok] at hexit ⊢
    rw [sessionOutcomeOfExit_exit] at hexit
    rcases hexit with h | h <;> rw [h] <;> rfl
  · intro sessions game_id running terminateOk h
    simp [stop_game_session, h]

/-- Witness for C7 amended: stopping a game with an empty registry
returns the "no such session" error. -/
theorem unregister_and_stop_witness :
    stop_game_session [] 1 (fun _ => true) (fun _ => true)
      = .error "no monitoring session found for game" :=
  unregister_and_stop_amended.2 [] 1 (fun _ => true) (fun _ => true) rfl

end GameMonitor
